import Mathlib

/-!
Verification development for the `dui` repository (a Docker terminal UI
written in Rust).  The definitions below are a shallow embedding of the
parts of the source the specification's claims are about:

* `src/completion.rs` — the tab-completion engine (`DockerCompleter`);
* `src/docker.rs`     — the daemon readiness prober
  (`wait_for_docker_daemon`, `ensure_docker_is_running`) and
  `create_container`;
* `src/utils.rs`      — `format_size`, `validate_container_name`;
* `src/main.rs`       — the interactive container/image sub-menus
  (`handle_interactive_container_menu`, `handle_interactive_image_menu`).

Rust strings are modelled as Lean `String` (sequences of Unicode scalar
values); Rust byte indices into UTF-8 strings are modelled with
`String.Pos`.  Subprocess side effects are modelled as explicit traces or
oracle parameters.
-/

namespace Dui

/-- Model of Rust `char::is_whitespace` for the characters the shell ever
deals with (ASCII whitespace and the common control characters); Lean's
`Char.isWhitespace` recognises space, tab, carriage return and newline,
which agrees with Rust on the ASCII range used by the program. -/
def rustIsWhitespace (c : Char) : Bool := c.isWhitespace

/-- Accumulator-style worker for `splitWhitespace`: `cur` holds the
characters of the token currently being read, in reverse order. -/
def splitWsAux : List Char → List Char → List String
  | [], cur => if cur = [] then [] else [String.mk cur.reverse]
  | c :: cs, cur =>
    if rustIsWhitespace c then
      if cur = [] then splitWsAux cs []
      else String.mk cur.reverse :: splitWsAux cs []
    else splitWsAux cs (c :: cur)

/-- Model of Rust `str::split_whitespace` (collects the maximal runs of
non-whitespace characters, discarding all whitespace). -/
def splitWhitespace (s : String) : List String :=
  splitWsAux s.data []

/-- Model of Rust `str::starts_with` with a string pattern:
`startsWith s p` is `s.starts_with(p)`, i.e. `p` is a prefix of `s`.
On valid UTF-8 a byte-level prefix is exactly a scalar-value prefix. -/
def startsWith (s pat : String) : Bool :=
  pat.data.isPrefixOf s.data

/-- Model of Rust `str::trim` (strip leading and trailing whitespace),
written over the character list: drop whitespace from the front, then from
the back. -/
def rustTrim (s : String) : String :=
  String.mk (((s.data.dropWhile rustIsWhitespace).reverse.dropWhile rustIsWhitespace).reverse)

/-- A completion candidate, mirroring `rustyline::completion::Pair`. -/
structure Pair where
  display : String
  replacement : String
deriving Repr, DecidableEq

/-- A container row as parsed from `docker ps` (src/docker.rs, `Container`). -/
structure Container where
  id : String
  name : String
  image : String
  status : String
  ports : String
deriving Repr, DecidableEq

instance : Inhabited Container := ⟨⟨"", "", "", "", ""⟩⟩

/-- An image row as parsed from `docker images` (src/docker.rs, `Image`). -/
structure Image where
  id : String
  repository : String
  tag : String
  size : String
  created : String
deriving Repr, DecidableEq

instance : Inhabited Image := ⟨⟨"", "", "", "", ""⟩⟩

/-- The engine client handle as the completion engine sees it: the only
operations `DockerCompleter` performs on it are `list_containers` and
`list_images`, so the client is modelled by the outcomes of those two
queries (`Err` carries the error string, as in the Rust `Result`). -/
structure DockerClient where
  listContainers : Except String (List Container)
  listImages : Except String (List Image)

/-- A client whose engine is unreachable: both listing queries fail. -/
def DockerClient.offline : DockerClient :=
  ⟨Except.error "Docker command failed", Except.error "Docker command failed"⟩

/-- Embedding of `DockerCompleter::get_commands` (src/completion.rs:20-29). -/
def getCommands : List String :=
  ["containers", "images", "networks", "volumes", "monitor", "interactive",
   "list", "start", "stop", "restart", "pause", "unpause", "remove", "logs",
   "exec", "inspect", "create", "size", "info",
   "attach", "commit", "cp", "diff", "export", "kill", "port", "rename",
   "top", "update", "wait",
   "pull", "build", "tag", "push", "history", "import", "load", "save",
   "stats", "system", "events", "dashboard", "charts",
   "help", "exit", "quit", "back"]

/-- Embedding of `DockerCompleter::get_container_names`
(src/completion.rs:31-36): the listed containers' names, or the empty list
when the listing query fails. -/
def getContainerNames (self : DockerClient) : List String :=
  match self.listContainers with
  | Except.ok cs => cs.map (fun c => c.name)
  | Except.error _ => []

/-- Embedding of `DockerCompleter::get_image_names`
(src/completion.rs:38-43): each image contributes `repository:tag`, and a
failed listing query contributes the empty list. -/
def getImageNames (self : DockerClient) : List String :=
  match self.listImages with
  | Except.ok is => is.map (fun i => i.repository ++ ":" ++ i.tag)
  | Except.error _ => []

/-- The loop `for x in xs \x7b if x.starts_with(partial) \x7b push Pair… \x7d \x7d`
that every branch of `complete` uses: filter by prefix, then make a
candidate whose display and replacement both equal the matched string. -/
def filterPairs (part : String) (xs : List String) : List Pair :=
  (xs.filter (fun x => startsWith x part)).map (fun x => ⟨x, x⟩)

/-- Container subcommand vocabulary (src/completion.rs:86-91). -/
def containerSubcommands : List String :=
  ["list", "start", "stop", "restart", "pause", "unpause", "remove",
   "logs", "exec", "inspect", "create", "size", "info", "attach",
   "commit", "cp", "diff", "export", "kill", "port", "rename",
   "top", "update", "wait"]

/-- Image subcommand vocabulary (src/completion.rs:103-106). -/
def imageSubcommands : List String :=
  ["list", "pull", "build", "tag", "push", "remove", "history",
   "import", "load", "save"]

/-- Monitor subcommand vocabulary (src/completion.rs:118). -/
def monitorSubcommands : List String :=
  ["stats", "system", "events", "dashboard", "charts"]

/-- The subcommand vocabulary registered for a top-level command: this is
the `match command` at src/completion.rs:83-129, whose arms are
`"containers"`, `"images"`, `"monitor"`, and a catch-all producing no
candidates. -/
def subcommandsFor (command : String) : List String :=
  if command = "containers" then containerSubcommands
  else if command = "images" then imageSubcommands
  else if command = "monitor" then monitorSubcommands
  else []

/-- The static argument table of `complete` for two preceding complete
tokens (the `match (command, subcommand)` at src/completion.rs:138-258),
one constructor per kind of right-hand side. -/
inductive ArgSource where
  | containerNames
  | imageNames
  | staticList (xs : List String)
deriving Repr, DecidableEq

/-- The subcommands of `containers` whose position-2 argument is a
container name via the big first arm at src/completion.rs:139-144. -/
def containerNameArmKeys : List String :=
  ["start", "stop", "restart", "pause", "unpause", "remove",
   "logs", "inspect", "info", "attach", "diff", "kill",
   "port", "top", "update", "wait", "size"]

/-- The subcommands of `images` whose position-2 argument is an image name
via the arm at src/completion.rs:210-211. -/
def imageNameArmKeys : List String :=
  ["pull", "remove", "push", "history", "save"]

/-- Lookup of the `match (command, subcommand)` arms of `complete` for two
preceding complete tokens (src/completion.rs:138-258).  `none` is the
catch-all `_ => \x7b\x7d` arm. -/
def posTwoArm (command subcommand : String) : Option ArgSource :=
  if command = "containers" ∧ subcommand ∈ containerNameArmKeys then
    some ArgSource.containerNames
  else if command = "containers" ∧ subcommand = "exec" then
    some ArgSource.containerNames
  else if command = "containers" ∧ subcommand = "commit" then
    some ArgSource.containerNames
  else if command = "containers" ∧ subcommand = "cp" then
    some ArgSource.containerNames
  else if command = "containers" ∧ subcommand = "export" then
    some ArgSource.containerNames
  else if command = "containers" ∧ subcommand = "rename" then
    some ArgSource.containerNames
  else if command = "images" ∧ subcommand ∈ imageNameArmKeys then
    some ArgSource.imageNames
  else if command = "images" ∧ subcommand = "build" then
    some (ArgSource.staticList [".", "./", "../", "~/"])
  else if command = "images" ∧ subcommand = "tag" then
    some ArgSource.imageNames
  else if command = "images" ∧ (subcommand = "import" ∨ subcommand = "load") then
    some (ArgSource.staticList ["./", "../", "~/", "/tmp/"])
  else none

/-- Candidates contributed by one position-2 arm. -/
def argSourceNames (self : DockerClient) : ArgSource → List String
  | ArgSource.containerNames => getContainerNames self
  | ArgSource.imageNames => getImageNames self
  | ArgSource.staticList xs => xs

/-- Lookup of the `match (command, subcommand)` arms of `complete` for
three preceding complete tokens (src/completion.rs:267-377). -/
def posThreeArm (command subcommand : String) : Option (List String) :=
  if command = "containers" ∧ subcommand = "exec" then
    some ["ls", "ps", "cat", "echo", "pwd", "whoami", "date", "top", "htop", "vim", "nano"]
  else if command = "containers" ∧ subcommand = "commit" then
    some ["myapp", "nginx", "postgres", "redis", "mysql", "ubuntu", "alpine"]
  else if command = "containers" ∧ subcommand = "cp" then
    some ["./", "/tmp/", "/var/", "/etc/", "/home/"]
  else if command = "containers" ∧ subcommand = "export" then
    some [".tar", ".tar.gz", ".tar.bz2"]
  else if command = "containers" ∧ subcommand = "kill" then
    some ["SIGTERM", "SIGKILL", "SIGINT", "SIGQUIT", "SIGHUP"]
  else if command = "containers" ∧ subcommand = "rename" then
    some ["new-", "renamed-", "backup-", "old-"]
  else if command = "images" ∧ subcommand = "tag" then
    some ["latest", "v1.0", "v1.1", "stable", "dev", "test", "prod"]
  else if command = "images" ∧ subcommand = "import" then
    some ["myapp", "nginx", "postgres", "redis", "mysql", "ubuntu", "alpine"]
  else if command = "images" ∧ subcommand = "save" then
    some [".tar", ".tar.gz", ".tar.bz2"]
  else none

/-- Lookup of the `match (command, subcommand)` arms of `complete` for
four preceding complete tokens (src/completion.rs:386-423). -/
def posFourArm (command subcommand : String) : Option (List String) :=
  if command = "containers" ∧ subcommand = "commit" then
    some ["latest", "v1.0", "v1.1", "stable", "dev", "test", "prod"]
  else if command = "containers" ∧ subcommand = "cp" then
    some ["./", "/tmp/", "/var/", "/etc/", "/home/"]
  else if command = "images" ∧ subcommand = "import" then
    some ["latest", "v1.0", "v1.1", "stable", "dev", "test", "prod"]
  else none

/-- Byte index of the last literal space character of `s`
(Rust `str::rfind(' ')`), accumulated as a UTF-8 byte offset. -/
def rfindSpaceAux : List Char → Nat → Option Nat → Option Nat
  | [], _, acc => acc
  | c :: cs, i, acc =>
    rfindSpaceAux cs (i + c.utf8Size) (if c = ' ' then some i else acc)

/-- Model of `line_before_cursor.rfind(' ')` in src/completion.rs. -/
def rfindSpace (s : String) : Option Nat :=
  rfindSpaceAux s.data 0 none

/-- Embedding of `DockerCompleter::complete` (src/completion.rs:49-429).
The returned pair is `(replace_from, candidates)`; `pos` is the cursor's
byte index into `line`, and `&line[..pos]` is `String.extract`. -/
def complete (self : DockerClient) (line : String) (pos : Nat) : Nat × List Pair :=
  let lineBeforeCursor := line.extract 0 ⟨pos⟩
  let words := splitWhitespace lineBeforeCursor
  match words with
  | [] => (0, getCommands.map (fun c => ⟨c, c⟩))
  | [w0] => (0, filterPairs w0 getCommands)
  | [w0, w1] =>
      ((rfindSpace lineBeforeCursor).getD 0 + 1, filterPairs w1 (subcommandsFor w0))
  | [w0, w1, w2] =>
      ((rfindSpace lineBeforeCursor).getD 0 + 1,
        match posTwoArm w0 w1 with
        | some src => filterPairs w2 (argSourceNames self src)
        | none => [])
  | [w0, w1, _, w3] =>
      ((rfindSpace lineBeforeCursor).getD 0 + 1,
        match posThreeArm w0 w1 with
        | some xs => filterPairs w3 xs
        | none => [])
  | [w0, w1, _, _, w4] =>
      ((rfindSpace lineBeforeCursor).getD 0 + 1,
        match posFourArm w0 w1 with
        | some xs => filterPairs w4 xs
        | none => [])
  | _ => (pos, [])

/-! ### The interactive sub-menus (src/main.rs:926-1391)

Each iteration of `handle_interactive_container_menu` /
`handle_interactive_image_menu` reads a line, trims it, exits on `back`,
splits the trimmed line on whitespace and matches the token list.  One
iteration is embedded as a pure step function whose result records the
engine calls issued, the validation error messages printed by
`ui.show_error` before any engine call, and whether the loop continues.
The messages printed after an engine call returns (success or failure
reports) depend on the engine's response and are not part of the trace.
`ui.confirm` (used only by the `remove` actions) is an oracle parameter. -/

/-- One call into the engine client (`DockerClient` methods in
src/docker.rs), recording the method and its arguments. -/
inductive EngineCall where
  | startContainer (name : String)
  | stopContainer (name : String)
  | restartContainer (name : String)
  | pauseContainer (name : String)
  | unpauseContainer (name : String)
  | removeContainer (name : String)
  | getContainerLogs (name : String)
  | execContainer (name cmd : String)
  | inspectContainer (name : String)
  | getContainerInfo (name : String)
  | getContainerProcesses (name : String)
  | attachContainer (name : String)
  | commitContainer (name repo : String)
  | copyFromContainer (name src dest : String)
  | diffContainer (name : String)
  | exportContainer (name file : String)
  | killContainer (name : String)
  | getContainerPorts (name : String)
  | renameContainer (oldName newName : String)
  | updateContainer (name : String)
  | waitForContainer (name : String)
  | removeImage (name : String)
  | tagImage (source target : String)
  | pushImage (name : String)
  | getContainerHistory (name : String)
  | saveImage (name file : String)
deriving Repr, DecidableEq

/-- Outcome of one sub-menu iteration: the engine calls issued, the
`ui.show_error` messages printed before any engine call, and whether the
`loop` continues (`false` exactly for `back`). -/
structure MenuResult where
  engineCalls : List EngineCall
  errors : List String
  continues : Bool
deriving Repr, DecidableEq

/-- Model of Rust `usize::from_str`: an optional leading `+`, then one or
more ASCII digits, with the value bounded by `usize::MAX` (64-bit). -/
def parseUsize (s : String) : Option Nat :=
  let core := if s.data.head? = some '+' then s.data.tail else s.data
  if core ≠ [] ∧ core.all Char.isDigit then
    let v := core.foldl (fun acc c => acc * 10 + (c.toNat - '0'.toNat)) 0
    if v ≤ 2 ^ 64 - 1 then some v else none
  else none

/-- The index-validation block shared by every numbered action arm
(src/main.rs:941-954 and its 25 clones): parse the index, check
`index > 0 && index <= list.len()`, and either run the action body on
element `index - 1` or print the appropriate error and continue. -/
def indexedStep {α : Type} [Inhabited α] (items : List α) (num : String)
    (outOfRangeMsg : String) (body : α → MenuResult) : MenuResult :=
  match parseUsize num with
  | some index =>
      if index > 0 ∧ index ≤ items.length then
        body (items.getD (index - 1) default)
      else
        ⟨[], [outOfRangeMsg], true⟩
  | none => ⟨[], ["Invalid number format"], true⟩

/-- A `MenuResult` that issues exactly the given engine call. -/
def callStep (c : EngineCall) : MenuResult := ⟨[c], [], true⟩

/-- The catch-all `_ =>` arm of both sub-menus. -/
def invalidActionStep : MenuResult :=
  ⟨[], ["Invalid action. Use 'back' to return to main menu."], true⟩

/-- The two-token arms of `handle_interactive_container_menu` (patterns
`[action, num]` of its `match parts.as_slice()`), dispatched on the
action word; a literal slice pattern is an arity test plus a literal
equality test, written here as the equality chain. -/
def containerMenuStep2 (containers : List Container) (a num : String)
    (confirmAnswer : Bool) : MenuResult :=
  if a = "start" then
    indexedStep containers num "Invalid container number"
      (fun c => callStep (EngineCall.startContainer c.name))
  else if a = "stop" then
    indexedStep containers num "Invalid container number"
      (fun c => callStep (EngineCall.stopContainer c.name))
  else if a = "restart" then
    indexedStep containers num "Invalid container number"
      (fun c => callStep (EngineCall.restartContainer c.name))
  else if a = "pause" then
    indexedStep containers num "Invalid container number"
      (fun c => callStep (EngineCall.pauseContainer c.name))
  else if a = "unpause" then
    indexedStep containers num "Invalid container number"
      (fun c => callStep (EngineCall.unpauseContainer c.name))
  else if a = "remove" then
    indexedStep containers num "Invalid container number"
      (fun c =>
        if confirmAnswer then callStep (EngineCall.removeContainer c.name)
        else ⟨[], [], true⟩)
  else if a = "logs" then
    indexedStep containers num "Invalid container number"
      (fun c => callStep (EngineCall.getContainerLogs c.name))
  else if a = "inspect" then
    indexedStep containers num "Invalid container number"
      (fun c => callStep (EngineCall.inspectContainer c.name))
  else if a = "info" then
    indexedStep containers num "Invalid container number"
      (fun c => callStep (EngineCall.getContainerInfo c.name))
  else if a = "top" then
    indexedStep containers num "Invalid container number"
      (fun c => callStep (EngineCall.getContainerProcesses c.name))
  else if a = "attach" then
    indexedStep containers num "Invalid container number"
      (fun c => callStep (EngineCall.attachContainer c.name))
  else if a = "diff" then
    indexedStep containers num "Invalid container number"
      (fun c => callStep (EngineCall.diffContainer c.name))
  else if a = "kill" then
    indexedStep containers num "Invalid container number"
      (fun c => callStep (EngineCall.killContainer c.name))
  else if a = "port" then
    indexedStep containers num "Invalid container number"
      (fun c => callStep (EngineCall.getContainerPorts c.name))
  else if a = "update" then
    indexedStep containers num "Invalid container number"
      (fun c => callStep (EngineCall.updateContainer c.name))
  else if a = "wait" then
    indexedStep containers num "Invalid container number"
      (fun c => callStep (EngineCall.waitForContainer c.name))
  else invalidActionStep

/-- The three-token arms of `handle_interactive_container_menu` (patterns
`[action, num, arg]`). -/
def containerMenuStep3 (containers : List Container) (a num arg : String) : MenuResult :=
  if a = "exec" then
    indexedStep containers num "Invalid container number"
      (fun c => callStep (EngineCall.execContainer c.name arg))
  else if a = "commit" then
    indexedStep containers num "Invalid container number"
      (fun c => callStep (EngineCall.commitContainer c.name arg))
  else if a = "export" then
    indexedStep containers num "Invalid container number"
      (fun c => callStep (EngineCall.exportContainer c.name arg))
  else if a = "rename" then
    indexedStep containers num "Invalid container number"
      (fun c => callStep (EngineCall.renameContainer c.name arg))
  else invalidActionStep

/-- The four-token arm of `handle_interactive_container_menu` (pattern
`["cp", num, src, dest]`). -/
def containerMenuStep4 (containers : List Container) (a num src dest : String) : MenuResult :=
  if a = "cp" then
    indexedStep containers num "Invalid container number"
      (fun c => callStep (EngineCall.copyFromContainer c.name src dest))
  else invalidActionStep

/-- Embedding of one iteration of `handle_interactive_container_menu`
(src/main.rs:926-1283).  `confirmAnswer` is the reply `ui.confirm` would
give for the `remove` arm.  The source's `match parts.as_slice()` is
split by arity: two-token patterns in `containerMenuStep2`, three-token
patterns in `containerMenuStep3`, the four-token pattern in
`containerMenuStep4`, every other shape falling to the catch-all. -/
def containerMenuStep (containers : List Container) (rawInput : String)
    (confirmAnswer : Bool) : MenuResult :=
  let input := rustTrim rawInput
  if input = "back" then ⟨[], [], false⟩
  else
    match splitWhitespace input with
    | [a, num] => containerMenuStep2 containers a num confirmAnswer
    | [a, num, arg] => containerMenuStep3 containers a num arg
    | [a, num, src, dest] => containerMenuStep4 containers a num src dest
    | _ => invalidActionStep

/-- The `repository:tag` display name built in every image-menu arm. -/
def imageRefName (i : Image) : String := i.repository ++ ":" ++ i.tag

/-- The two-token arms of `handle_interactive_image_menu` (patterns
`[action, num]`). -/
def imageMenuStep2 (images : List Image) (a num : String)
    (confirmAnswer : Bool) : MenuResult :=
  if a = "remove" then
    indexedStep images num "Invalid image number"
      (fun i =>
        if confirmAnswer then callStep (EngineCall.removeImage (imageRefName i))
        else ⟨[], [], true⟩)
  else if a = "push" then
    indexedStep images num "Invalid image number"
      (fun i => callStep (EngineCall.pushImage (imageRefName i)))
  else if a = "history" then
    indexedStep images num "Invalid image number"
      (fun i => callStep (EngineCall.getContainerHistory (imageRefName i)))
  else invalidActionStep

/-- The three-token arms of `handle_interactive_image_menu` (patterns
`[action, num, arg]`). -/
def imageMenuStep3 (images : List Image) (a num arg : String) : MenuResult :=
  if a = "tag" then
    indexedStep images num "Invalid image number"
      (fun i => callStep (EngineCall.tagImage (imageRefName i) arg))
  else if a = "save" then
    indexedStep images num "Invalid image number"
      (fun i => callStep (EngineCall.saveImage (imageRefName i) arg))
  else invalidActionStep

/-- Embedding of one iteration of `handle_interactive_image_menu`
(src/main.rs:1285-1391).  `confirmAnswer` is the reply `ui.confirm` would
give for the `remove` arm.  As with the container menu, the `match
parts.as_slice()` is split by arity. -/
def imageMenuStep (images : List Image) (rawInput : String)
    (confirmAnswer : Bool) : MenuResult :=
  let input := rustTrim rawInput
  if input = "back" then ⟨[], [], false⟩
  else
    match splitWhitespace input with
    | [a, num] => imageMenuStep2 images a num confirmAnswer
    | [a, num, arg] => imageMenuStep3 images a num arg
    | _ => invalidActionStep

/-! ### The readiness prober (src/docker.rs:195-225) -/

/-- Result of `wait_for_docker_daemon`, traced: the number of liveness
probes (`is_docker_daemon_running` calls) performed, the number of
`thread::sleep(delay)` calls performed, and the returned `Result`. -/
structure WaitTrace where
  polls : Nat
  sleeps : Nat
  result : Except String Unit
deriving Repr

/-- The fixed polling interval of `wait_for_docker_daemon`
(`Duration::from_secs(2)`), in seconds. -/
def pollDelaySeconds : Nat := 2

/-- The fixed retry budget of `wait_for_docker_daemon` (`max_attempts`). -/
def maxAttempts : Nat := 30

/-- The body of the `for attempt in 1..=max_attempts` loop of
`wait_for_docker_daemon` (src/docker.rs:199-207), iterated over the list
of remaining attempt numbers.  `live k` is the outcome of the liveness
probe performed on attempt `k`. -/
def waitGo (live : Nat → Bool) (maxA : Nat) : List Nat → WaitTrace
  | [] =>
      ⟨0, 0,
        Except.error
          "Docker daemon failed to start within expected time (60 seconds). Please check Docker installation."⟩
  | attempt :: rest =>
      if live attempt then ⟨1, 0, Except.ok ()⟩
      else
        let r := waitGo live maxA rest
        ⟨r.polls + 1, r.sleeps + (if attempt < maxA then 1 else 0), r.result⟩

/-- Embedding of `wait_for_docker_daemon` (src/docker.rs:195-210): poll up
to `max_attempts = 30` times, sleeping `delay` after every failed probe
except the last. -/
def waitForDockerDaemon (live : Nat → Bool) : WaitTrace :=
  waitGo live maxAttempts (List.range' 1 maxAttempts)

/-- The engine environment `ensure_docker_is_running` observes:
whether `docker --version` succeeds, whether the liveness probe `docker
info` succeeds, and the outcome of the platform-specific
`start_docker_daemon` routine (which itself ends in a
`wait_for_docker_daemon` call, abstracted here as its `Result`). -/
structure Engine where
  available : Bool
  daemonRunning : Bool
  startOutcome : Except String Unit

/-- Traced result of `ensure_docker_is_running`: whether the liveness
probe was consulted, whether a startup was attempted, and the `Result`. -/
structure EnsureTrace where
  probedLiveness : Bool
  attemptedStart : Bool
  result : Except String Unit
deriving Repr

/-- Embedding of `ensure_docker_is_running` (src/docker.rs:212-225). -/
def ensureDockerIsRunning (eng : Engine) : EnsureTrace :=
  if ¬ eng.available then
    ⟨false, false, Except.error "Docker is not installed. Please install Docker first."⟩
  else if eng.daemonRunning then
    ⟨true, false, Except.ok ()⟩
  else
    ⟨true, true, eng.startOutcome⟩

/-! ### Utility functions (src/utils.rs)

The `f64` arithmetic of `format_size` is modelled over `ℚ`.  This is
exact for the byte counts the claims quantify over: converting a `u64`
below `2^53` to `f64` is exact, and dividing an `f64` by `1024 = 2^10`
only decrements the exponent, so every loop iteration is exact. -/

/-- The `UNITS` array of `format_size` (src/utils.rs:4). -/
def sizeUnits : List String := ["B", "KB", "MB", "GB", "TB"]

/-- One iteration of the `while size >= 1024.0 && unit_index < UNITS.len() - 1`
loop of `format_size` (src/utils.rs:8-11) on the state
`(size, unit_index)`: a no-op when the guard fails. -/
def sizeStep (p : ℚ × Nat) : ℚ × Nat :=
  if 1024 ≤ p.1 ∧ p.2 < sizeUnits.length - 1 then (p.1 / 1024, p.2 + 1) else p

/-- The whole `while` loop of `format_size`: `unit_index` grows by one per
iteration and the guard requires `unit_index < 4`, so the loop performs at
most four iterations; because `sizeStep` is the identity once the guard
fails (and the guard's value then never changes again), four applications
of `sizeStep` compute the loop exactly. -/
def runSizeLoop (bytes : Nat) : ℚ × Nat :=
  sizeStep (sizeStep (sizeStep (sizeStep ((bytes : ℚ), 0))))

/-- Round to the nearest integer, ties to even: the rounding Rust's
float formatting applies to the exact value when printing with `\x7b:.1\x7d`. -/
def roundHalfEven (q : ℚ) : ℤ :=
  if q - ⌊q⌋ < 1 / 2 then ⌊q⌋
  else if q - ⌊q⌋ > 1 / 2 then ⌊q⌋ + 1
  else if ⌊q⌋ % 2 = 0 then ⌊q⌋ else ⌊q⌋ + 1

/-- Model of `format!("\x7b:.1\x7d", size)` for a nonnegative `size`: one
digit after the decimal point, correctly rounded. -/
def fmtOneDecimal (q : ℚ) : String :=
  let t := roundHalfEven (q * 10)
  toString (t / 10) ++ "." ++ toString (t % 10)

/-- Embedding of `format_size` (src/utils.rs:3-18).  At `unit_index = 0`
the source prints `size as u64` (truncation), modelled as the floor of the
nonnegative exact value. -/
def formatSize (bytes : Nat) : String :=
  let p := runSizeLoop bytes
  if p.2 = 0 then toString ⌊p.1⌋ ++ " " ++ sizeUnits.getD p.2 ""
  else fmtOneDecimal p.1 ++ " " ++ sizeUnits.getD p.2 ""

/-- Embedding of `validate_container_name` (src/utils.rs:28-42).
`isAlnum` is the classifier `char::is_alphanumeric`; Rust's version uses
the full Unicode `Alphabetic` and `Number` tables, which are outside this
embedding, so the classifier is an explicit parameter (on ASCII it agrees
with `Char.isAlphanum`).  `name.len()` in Rust is the UTF-8 byte length,
hence `String.utf8ByteSize`. -/
def validateContainerName (isAlnum : Char → Bool) (name : String) : Except String Unit :=
  if name.isEmpty then
    Except.error "Container name cannot be empty"
  else if name.utf8ByteSize > 63 then
    Except.error "Container name cannot be longer than 63 characters"
  else if ¬ name.data.all (fun c => isAlnum c || c = '-' || c = '_' || c = '.') then
    Except.error "Container name can only contain alphanumeric characters, hyphens, underscores, and dots"
  else
    Except.ok ()

/-- Embedding of `validate_image_name` (src/utils.rs:44-55). -/
def validateImageName (name : String) : Except String Unit :=
  if name.isEmpty then Except.error "Image name cannot be empty"
  else if name.data.contains ' ' then Except.error "Image name cannot contain spaces"
  else Except.ok ()

/-- Embedding of `create_container` (src/docker.rs:229-268) up to the
subprocess boundary: both validations run first, and only when both pass
is the `docker` subprocess spawned — the `Except.ok` value is the argument
vector passed to it; an `Except.error` before that point means no
subprocess was spawned. -/
def createContainerArgs (isAlnum : Char → Bool) (name image : String)
    (ports volumes env : Option String) : Except String (List String) :=
  match validateContainerName isAlnum name with
  | Except.error e => Except.error e
  | Except.ok () =>
    match validateImageName image with
    | Except.error e => Except.error e
    | Except.ok () =>
      Except.ok
        (["run", "-d", "--name", name]
          ++ (match ports with | some p => ["-p", p] | none => [])
          ++ (match volumes with | some v => ["-v", v] | none => [])
          ++ (match env with | some e => ["-e", e] | none => [])
          ++ [image])

/-! ### Derived vocabulary for the claims -/

/-- The keys of the position-2 grammar table: every `(command, subcommand)`
pair matched by some arm of the `match (command, subcommand)` at
src/completion.rs:138-258. -/
def posTwoTableKeys : List (String × String) :=
  (containerNameArmKeys.map (fun s => ("containers", s))) ++
    [("containers", "exec"), ("containers", "commit"), ("containers", "cp"),
     ("containers", "export"), ("containers", "rename")] ++
    (imageNameArmKeys.map (fun s => ("images", s))) ++
    [("images", "build"), ("images", "tag"), ("images", "import"), ("images", "load")]

/-- The numbered container-menu actions (src/main.rs:940-1277), with the
extra string arguments some of them take. -/
inductive CAction where
  | start | stop | restart | pause | unpause | remove | logs
  | exec (cmd : String) | inspect | info | top | attach
  | commit (repo : String) | cp (src dest : String) | diff
  | export (file : String) | kill | port | rename (newName : String)
  | update | wait
deriving Repr, DecidableEq

/-- The token list a container-menu action with index token `n` is entered
as (the patterns of the `match parts.as_slice()` in
`handle_interactive_container_menu`). -/
def cActionTokens : CAction → String → List String
  | CAction.start, n => ["start", n]
  | CAction.stop, n => ["stop", n]
  | CAction.restart, n => ["restart", n]
  | CAction.pause, n => ["pause", n]
  | CAction.unpause, n => ["unpause", n]
  | CAction.remove, n => ["remove", n]
  | CAction.logs, n => ["logs", n]
  | CAction.exec cmd, n => ["exec", n, cmd]
  | CAction.inspect, n => ["inspect", n]
  | CAction.info, n => ["info", n]
  | CAction.top, n => ["top", n]
  | CAction.attach, n => ["attach", n]
  | CAction.commit repo, n => ["commit", n, repo]
  | CAction.cp src dest, n => ["cp", n, src, dest]
  | CAction.diff, n => ["diff", n]
  | CAction.export file, n => ["export", n, file]
  | CAction.kill, n => ["kill", n]
  | CAction.port, n => ["port", n]
  | CAction.rename newName, n => ["rename", n, newName]
  | CAction.update, n => ["update", n]
  | CAction.wait, n => ["wait", n]

/-- The engine calls a container-menu action issues once its index has
resolved to container `c`: exactly one call, except that `remove` first
asks `ui.confirm` and issues none when the user declines. -/
def cActionCalls : CAction → Bool → Container → List EngineCall
  | CAction.start, _, c => [EngineCall.startContainer c.name]
  | CAction.stop, _, c => [EngineCall.stopContainer c.name]
  | CAction.restart, _, c => [EngineCall.restartContainer c.name]
  | CAction.pause, _, c => [EngineCall.pauseContainer c.name]
  | CAction.unpause, _, c => [EngineCall.unpauseContainer c.name]
  | CAction.remove, confirm, c =>
      if confirm then [EngineCall.removeContainer c.name] else []
  | CAction.logs, _, c => [EngineCall.getContainerLogs c.name]
  | CAction.exec cmd, _, c => [EngineCall.execContainer c.name cmd]
  | CAction.inspect, _, c => [EngineCall.inspectContainer c.name]
  | CAction.info, _, c => [EngineCall.getContainerInfo c.name]
  | CAction.top, _, c => [EngineCall.getContainerProcesses c.name]
  | CAction.attach, _, c => [EngineCall.attachContainer c.name]
  | CAction.commit repo, _, c => [EngineCall.commitContainer c.name repo]
  | CAction.cp src dest, _, c => [EngineCall.copyFromContainer c.name src dest]
  | CAction.diff, _, c => [EngineCall.diffContainer c.name]
  | CAction.export file, _, c => [EngineCall.exportContainer c.name file]
  | CAction.kill, _, c => [EngineCall.killContainer c.name]
  | CAction.port, _, c => [EngineCall.getContainerPorts c.name]
  | CAction.rename newName, _, c => [EngineCall.renameContainer c.name newName]
  | CAction.update, _, c => [EngineCall.updateContainer c.name]
  | CAction.wait, _, c => [EngineCall.waitForContainer c.name]

/-- The numbered image-menu actions (src/main.rs:1299-1385). -/
inductive IAction where
  | remove | tag (newTag : String) | push | history | save (file : String)
deriving Repr, DecidableEq

/-- The token list an image-menu action with index token `n` is entered as. -/
def iActionTokens : IAction → String → List String
  | IAction.remove, n => ["remove", n]
  | IAction.tag newTag, n => ["tag", n, newTag]
  | IAction.push, n => ["push", n]
  | IAction.history, n => ["history", n]
  | IAction.save file, n => ["save", n, file]

/-- The engine calls an image-menu action issues once its index has
resolved to image `i`; `remove` is gated on the `ui.confirm` reply. -/
def iActionCalls : IAction → Bool → Image → List EngineCall
  | IAction.remove, confirm, i =>
      if confirm then [EngineCall.removeImage (imageRefName i)] else []
  | IAction.tag newTag, _, i => [EngineCall.tagImage (imageRefName i) newTag]
  | IAction.push, _, i => [EngineCall.pushImage (imageRefName i)]
  | IAction.history, _, i => [EngineCall.getContainerHistory (imageRefName i)]
  | IAction.save file, _, i => [EngineCall.saveImage (imageRefName i) file]

/-- Concrete stand-in for Rust `char::is_alphanumeric` on the characters
this development evaluates it at: it agrees with Rust on all of ASCII
(`Char.isAlphanum`) and on U+00E9 LATIN SMALL LETTER E WITH ACUTE, which
Rust classifies as alphabetic. -/
def duiIsAlnum (c : Char) : Bool := c.isAlphanum || c = 'é'

/-- A 32-character name whose UTF-8 encoding is 64 bytes: each `é` is one
character but two bytes. -/
def eAcuteName : String := String.mk (List.replicate 32 'é')

/-! ## Supporting lemmas -/

/-- Splitting a whitespace-free character list yields the single token
`cur.reverse ++ l` (or no token at all when both are empty). -/
theorem splitWsAux_of_no_ws (l : List Char) (h : ∀ c ∈ l, rustIsWhitespace c = false) :
    ∀ cur : List Char,
      splitWsAux l cur =
        if cur.reverse ++ l = [] then [] else [String.mk (cur.reverse ++ l)] := by
  induction l with
  | nil =>
      intro cur
      cases cur with
      | nil => rfl
      | cons c cs => simp [splitWsAux]
  | cons c cs ih =>
      intro cur
      have hc : rustIsWhitespace c = false := h c (List.mem_cons_self c cs)
      have hcs : ∀ x ∈ cs, rustIsWhitespace x = false :=
        fun x hx => h x (List.mem_cons_of_mem c hx)
      rw [splitWsAux, hc]
      simp only [Bool.false_eq_true, if_false, ih hcs (c :: cur), List.reverse_cons,
        List.append_assoc, List.singleton_append]

/-- A nonempty whitespace-free string is its own single token. -/
theorem splitWhitespace_eq_single (p : String) (hne : p ≠ "")
    (h : ∀ c ∈ p.data, rustIsWhitespace c = false) :
    splitWhitespace p = [p] := by
  have hd : p.data ≠ [] := by
    intro hd
    apply hne
    cases p
    simp_all
  rw [splitWhitespace, splitWsAux_of_no_ws p.data h []]
  simp [hd]

/-- Every string starts with the empty pattern. -/
theorem startsWith_empty (s : String) : startsWith s "" = true := by
  simp [startsWith, List.isPrefixOf]

/-- Candidates produced by the shared filter-and-push loop have equal
display and replacement texts, and the replacement extends the filter
pattern. -/
theorem mem_filterPairs {part : String} {xs : List String} {p : Pair}
    (hp : p ∈ filterPairs part xs) :
    p.display = p.replacement ∧ startsWith p.replacement part = true := by
  simp only [filterPairs, List.mem_map, List.mem_filter] at hp
  obtain ⟨x, ⟨_, hsw⟩, rfl⟩ := hp
  exact ⟨rfl, hsw⟩

/-- Container-name arm keys are keys of the position-2 table. -/
theorem mem_keys_container (sub : String) (hm : sub ∈ containerNameArmKeys) :
    ("containers", sub) ∈ posTwoTableKeys := by
  have h1 : ("containers", sub) ∈ containerNameArmKeys.map (fun s => ("containers", s)) :=
    List.mem_map_of_mem _ hm
  simp only [posTwoTableKeys, List.append_assoc, List.mem_append]
  exact Or.inl h1

/-- Image-name arm keys are keys of the position-2 table. -/
theorem mem_keys_image (sub : String) (hm : sub ∈ imageNameArmKeys) :
    ("images", sub) ∈ posTwoTableKeys := by
  have h1 : ("images", sub) ∈ imageNameArmKeys.map (fun s => ("images", s)) :=
    List.mem_map_of_mem _ hm
  simp only [posTwoTableKeys, List.append_assoc, List.mem_append]
  exact Or.inr (Or.inr (Or.inl h1))

/-- A pair outside the key list falls through to the catch-all arm. -/
theorem posTwoArm_eq_none (cmd sub : String) (h : (cmd, sub) ∉ posTwoTableKeys) :
    posTwoArm cmd sub = none := by
  have n1 : ¬(cmd = "containers" ∧ sub ∈ containerNameArmKeys) := by
    rintro ⟨rfl, hm⟩
    exact h (mem_keys_container sub hm)
  have n2 : ¬(cmd = "containers" ∧ sub = "exec") := by
    rintro ⟨rfl, rfl⟩
    exact h (by decide)
  have n3 : ¬(cmd = "containers" ∧ sub = "commit") := by
    rintro ⟨rfl, rfl⟩
    exact h (by decide)
  have n4 : ¬(cmd = "containers" ∧ sub = "cp") := by
    rintro ⟨rfl, rfl⟩
    exact h (by decide)
  have n5 : ¬(cmd = "containers" ∧ sub = "export") := by
    rintro ⟨rfl, rfl⟩
    exact h (by decide)
  have n6 : ¬(cmd = "containers" ∧ sub = "rename") := by
    rintro ⟨rfl, rfl⟩
    exact h (by decide)
  have n7 : ¬(cmd = "images" ∧ sub ∈ imageNameArmKeys) := by
    rintro ⟨rfl, hm⟩
    exact h (mem_keys_image sub hm)
  have n8 : ¬(cmd = "images" ∧ sub = "build") := by
    rintro ⟨rfl, rfl⟩
    exact h (by decide)
  have n9 : ¬(cmd = "images" ∧ sub = "tag") := by
    rintro ⟨rfl, rfl⟩
    exact h (by decide)
  have n10 : ¬(cmd = "images" ∧ (sub = "import" ∨ sub = "load")) := by
    rintro ⟨rfl, h'⟩
    rcases h' with rfl | rfl
    · exact h (by decide)
    · exact h (by decide)
  rw [posTwoArm, if_neg n1, if_neg n2, if_neg n3, if_neg n4, if_neg n5, if_neg n6,
    if_neg n7, if_neg n8, if_neg n9, if_neg n10]

/-- Trace of the wait loop when no probe ever reports live: one poll per
attempt, a sleep after each attempt that is not the last, and the timeout
error. -/
theorem waitGo_of_never_live (live : Nat → Bool) (h : ∀ k, live k = false) (maxA : Nat) :
    ∀ l : List Nat,
      waitGo live maxA l =
        ⟨l.length, (l.filter (fun a => a < maxA)).length,
          Except.error
            "Docker daemon failed to start within expected time (60 seconds). Please check Docker installation."⟩ := by
  intro l
  induction l with
  | nil => rfl
  | cons a l ih =>
      rw [waitGo, h a]
      simp only [Bool.false_eq_true, if_false, ih, List.filter_cons]
      by_cases ha : a < maxA <;> simp [ha]

/-- A container-menu input whose tokens form a numbered action reduces to
the shared index-validation block with that action's call list. -/
theorem containerMenuStep_eq (containers : List Container) (act : CAction)
    (numTok input : String) (confirm : Bool)
    (h : splitWhitespace (rustTrim input) = cActionTokens act numTok) :
    containerMenuStep containers input confirm =
      indexedStep containers numTok "Invalid container number"
        (fun c => ⟨cActionCalls act confirm c, [], true⟩) := by
  have hb : rustTrim input ≠ "back" := by
    intro hback
    have hsb : splitWhitespace "back" = ["back"] := rfl
    rw [hback, hsb] at h
    have hlen := congrArg List.length h
    cases act <;> simp [cActionTokens] at hlen
  simp only [containerMenuStep]
  rw [if_neg hb, h]
  cases act <;> first | rfl | (cases confirm <;> rfl)

/-- Image-menu analogue of `containerMenuStep_eq`. -/
theorem imageMenuStep_eq (images : List Image) (act : IAction)
    (numTok input : String) (confirm : Bool)
    (h : splitWhitespace (rustTrim input) = iActionTokens act numTok) :
    imageMenuStep images input confirm =
      indexedStep images numTok "Invalid image number"
        (fun i => ⟨iActionCalls act confirm i, [], true⟩) := by
  have hb : rustTrim input ≠ "back" := by
    intro hback
    have hsb : splitWhitespace "back" = ["back"] := rfl
    rw [hback, hsb] at h
    have hlen := congrArg List.length h
    cases act <;> simp [iActionTokens] at hlen
  simp only [imageMenuStep]
  rw [if_neg hb, h]
  cases act <;> first | rfl | (cases confirm <;> rfl)

/-- Behaviour of the shared index-validation block on each class of index
token: parse failure, out-of-range index, and in-range index. -/
theorem indexedStep_spec {α : Type} [Inhabited α] (items : List α) (num msg : String)
    (calls : α → List EngineCall) :
    (indexedStep items num msg (fun c => ⟨calls c, [], true⟩)).continues = true ∧
    (parseUsize num = none →
      indexedStep items num msg (fun c => ⟨calls c, [], true⟩) =
        ⟨[], ["Invalid number format"], true⟩) ∧
    (∀ i, parseUsize num = some i → (i = 0 ∨ i > items.length) →
      indexedStep items num msg (fun c => ⟨calls c, [], true⟩) = ⟨[], [msg], true⟩) ∧
    (∀ i, parseUsize num = some i → 1 ≤ i → i ≤ items.length →
      indexedStep items num msg (fun c => ⟨calls c, [], true⟩) =
        ⟨calls (items.getD (i - 1) default), [], true⟩) := by
  rcases hp : parseUsize num with _ | i
  · refine ⟨by simp [indexedStep, hp], fun _ => by simp [indexedStep, hp], ?_, ?_⟩
    · intro i hi
      exact absurd hi (by simp)
    · intro i hi
      exact absurd hi (by simp)
  · by_cases hin : i > 0 ∧ i ≤ items.length
    · refine ⟨by simp [indexedStep, hp, hin], ?_, ?_, ?_⟩
      · intro hno
        exact absurd hno (by simp)
      · intro j hj hrange
        replace hj := Option.some.inj hj
        subst hj
        omega
      · intro j hj h1 h2
        replace hj := Option.some.inj hj
        subst hj
        simp [indexedStep, hp, hin]
    · refine ⟨by simp [indexedStep, hp, hin], ?_, ?_, ?_⟩
      · intro hno
        exact absurd hno (by simp)
      · intro j hj hrange
        replace hj := Option.some.inj hj
        subst hj
        simp [indexedStep, hp, hin]
      · intro j hj h1 h2
        replace hj := Option.some.inj hj
        subst hj
        omega

/-! ## Claim theorems -/

/-- C1: in both interactive sub-menus, a numbered action on index token
`numTok` performs the action's engine call(s) on snapshot element `i - 1`
exactly when the parsed index satisfies `1 ≤ i ≤ len(snapshot)`; a parse
failure is rejected with the "Invalid number format" message, an
out-of-range index (including `0` and `len + 1`) with the
"Invalid container/image number" message, each with no engine call, and
the loop continues in every case.  For the `remove` actions the engine
call is additionally gated on the interactive confirmation, which
`cActionCalls`/`iActionCalls` make explicit. -/
theorem submenu_index_validation :
    (∀ (containers : List Container) (act : CAction) (numTok input : String) (confirm : Bool),
      splitWhitespace (rustTrim input) = cActionTokens act numTok →
      ((containerMenuStep containers input confirm).continues = true ∧
       (parseUsize numTok = none →
         containerMenuStep containers input confirm =
           ⟨[], ["Invalid number format"], true⟩) ∧
       (∀ i, parseUsize numTok = some i → (i = 0 ∨ i > containers.length) →
         containerMenuStep containers input confirm =
           ⟨[], ["Invalid container number"], true⟩) ∧
       (∀ i, parseUsize numTok = some i → 1 ≤ i → i ≤ containers.length →
         containerMenuStep containers input confirm =
           ⟨cActionCalls act confirm (containers.getD (i - 1) default), [], true⟩))) ∧
    (∀ (images : List Image) (act : IAction) (numTok input : String) (confirm : Bool),
      splitWhitespace (rustTrim input) = iActionTokens act numTok →
      ((imageMenuStep images input confirm).continues = true ∧
       (parseUsize numTok = none →
         imageMenuStep images input confirm = ⟨[], ["Invalid number format"], true⟩) ∧
       (∀ i, parseUsize numTok = some i → (i = 0 ∨ i > images.length) →
         imageMenuStep images input confirm = ⟨[], ["Invalid image number"], true⟩) ∧
       (∀ i, parseUsize numTok = some i → 1 ≤ i → i ≤ images.length →
         imageMenuStep images input confirm =
           ⟨iActionCalls act confirm (images.getD (i - 1) default), [], true⟩))) := by
  constructor
  · intro containers act numTok input confirm h
    rw [containerMenuStep_eq containers act numTok input confirm h]
    exact indexedStep_spec containers numTok "Invalid container number" (cActionCalls act confirm)
  · intro images act numTok input confirm h
    rw [imageMenuStep_eq images act numTok input confirm h]
    exact indexedStep_spec images numTok "Invalid image number" (iActionCalls act confirm)

/-- Witness for C1: on a one-container snapshot, `start 1` starts that
container, `start 2` and `start 0` are rejected with the bounds message,
and `start x` with the format message. -/
theorem submenu_index_validation_witness :
    splitWhitespace (rustTrim "start 1") = cActionTokens CAction.start "1" ∧
    containerMenuStep [⟨"cid", "web", "nginx", "Up", "80"⟩] "start 1" true =
      ⟨[EngineCall.startContainer "web"], [], true⟩ ∧
    containerMenuStep [⟨"cid", "web", "nginx", "Up", "80"⟩] "start 2" true =
      ⟨[], ["Invalid container number"], true⟩ ∧
    containerMenuStep [⟨"cid", "web", "nginx", "Up", "80"⟩] "start 0" true =
      ⟨[], ["Invalid container number"], true⟩ ∧
    containerMenuStep [⟨"cid", "web", "nginx", "Up", "80"⟩] "start x" true =
      ⟨[], ["Invalid number format"], true⟩ :=
  ⟨by decide,
    (submenu_index_validation.1 [⟨"cid", "web", "nginx", "Up", "80"⟩]
        CAction.start "1" "start 1" true (by decide)).2.2.2 1 (by decide) (by decide) (by decide),
    (submenu_index_validation.1 [⟨"cid", "web", "nginx", "Up", "80"⟩]
        CAction.start "2" "start 2" true (by decide)).2.2.1 2 (by decide) (by decide),
    (submenu_index_validation.1 [⟨"cid", "web", "nginx", "Up", "80"⟩]
        CAction.start "0" "start 0" true (by decide)).2.2.1 0 (by decide) (by decide),
    (submenu_index_validation.1 [⟨"cid", "web", "nginx", "Up", "80"⟩]
        CAction.start "x" "start x" true (by decide)).2.1 (by decide)⟩

/-- C2: when the liveness probe never reports live, the wait loop performs
exactly 30 polls with a fixed 2-second sleep between consecutive polls (29
sleeps), then returns the timeout error. -/
theorem waitForDockerDaemon_exhausts_budget (live : Nat → Bool)
    (h : ∀ k, live k = false) :
    waitForDockerDaemon live =
      ⟨30, 29,
        Except.error
          "Docker daemon failed to start within expected time (60 seconds). Please check Docker installation."⟩
      ∧ pollDelaySeconds = 2 := by
  refine ⟨?_, rfl⟩
  rw [waitForDockerDaemon, waitGo_of_never_live live h]
  simp only [maxAttempts, WaitTrace.mk.injEq]
  refine ⟨by decide, by decide, trivial⟩

/-- Witness for C2 at the constantly-false probe. -/
theorem waitForDockerDaemon_exhausts_budget_witness :
    waitForDockerDaemon (fun _ => false) =
      ⟨30, 29,
        Except.error
          "Docker daemon failed to start within expected time (60 seconds). Please check Docker installation."⟩
      ∧ pollDelaySeconds = 2 :=
  waitForDockerDaemon_exhausts_budget (fun _ => false) (fun _ => rfl)

/-- C3: completing any whitespace-free prefix `p` of a first token returns
exactly the top-level commands that start with `p` (case-sensitive
byte-wise prefix), in the vocabulary's declaration order, each as a
candidate whose display and replacement equal the command; the reported
replacement offset is 0. -/
theorem complete_position_zero_top_level (self : DockerClient) (line : String)
    (pos : Nat) (p : String) (hslice : line.extract 0 ⟨pos⟩ = p)
    (hnws : ∀ c ∈ p.data, rustIsWhitespace c = false) :
    complete self line pos =
      (0, (getCommands.filter (fun v => startsWith v p)).map (fun v => Pair.mk v v)) := by
  by_cases hp : p = ""
  · subst hp
    have h0 : splitWhitespace "" = [] := rfl
    have hfil : getCommands.filter (fun v => startsWith v "") = getCommands := by
      simp [startsWith, List.isPrefixOf]
    simp only [complete, hslice, h0, hfil]
  · have hs := splitWhitespace_eq_single p hp hnws
    simp only [complete, hslice, hs]
    rfl

/-- Witness for C3 at the prefix `con`, which matches only `containers`. -/
theorem complete_position_zero_top_level_witness :
    "con".extract 0 ⟨3⟩ = "con" ∧
    complete DockerClient.offline "con" 3 = (0, [Pair.mk "containers" "containers"]) :=
  ⟨rfl,
    (complete_position_zero_top_level DockerClient.offline "con" 3 "con" rfl
        (by decide)).trans (by decide)⟩

/-- C4 counterexample: after `containers ` (trailing space) the claim
predicts the full container subcommand vocabulary (prefix-filtered by the
empty partial token), but tokenization drops the trailing whitespace, so
the code takes the one-token branch and returns the single candidate
`containers` instead. -/
theorem complete_trailing_space_subcommand_cex :
    (complete DockerClient.offline "containers " 11).2 =
      [Pair.mk "containers" "containers"] ∧
    (complete DockerClient.offline "containers " 11).2 ≠
      ((subcommandsFor "containers").filter (fun v => startsWith v "")).map
        (fun v => Pair.mk v v) := by
  refine ⟨rfl, ?_⟩
  decide

/-- C4 (amended): for every input line whose text before the cursor splits
into exactly one complete token followed by a nonempty partial second
token, completion returns the subcommand vocabulary registered for that
top-level command filtered by prefix against the partial token — the empty
set when the command has no registered subcommands. -/
theorem complete_subcommand_vocabulary (self : DockerClient) (line : String)
    (pos : Nat) (cmd part : String)
    (h : splitWhitespace (line.extract 0 ⟨pos⟩) = [cmd, part]) :
    (complete self line pos).2 =
      ((subcommandsFor cmd).filter (fun v => startsWith v part)).map (fun v => Pair.mk v v) := by
  simp only [complete, h]
  rfl

/-- Witness for C4 at `containers st`, whose candidates are `start` and
`stop`, and at `networks x`, a command with no registered subcommands. -/
theorem complete_subcommand_vocabulary_witness :
    splitWhitespace ("containers st".extract 0 ⟨13⟩) = ["containers", "st"] ∧
    (complete DockerClient.offline "containers st" 13).2 =
      [Pair.mk "start" "start", Pair.mk "stop" "stop"] ∧
    (complete DockerClient.offline "networks x" 10).2 = [] :=
  ⟨by decide,
    (complete_subcommand_vocabulary DockerClient.offline "containers st" 13
        "containers" "st" (by decide)).trans (by decide),
    (complete_subcommand_vocabulary DockerClient.offline "networks x" 10
        "networks" "x" (by decide)).trans (by decide)⟩

/-- C5 counterexample: typing `images ` (trailing space) and completing
yields the single candidate `images`, not zero candidates, no matter what
the engine's image listing would return (here: an unreachable engine). -/
theorem complete_images_no_images_cex :
    (complete DockerClient.offline "images " 7).2 = [Pair.mk "images" "images"] ∧
    (complete DockerClient.offline "images " 7).2 ≠ [] := by
  refine ⟨rfl, ?_⟩
  decide

/-- C5 (amended): completing `images ` (trailing space) returns exactly
one candidate — the command `images` itself — for every client state, so
no engine listing is consulted and no error is raised; the trailing
whitespace is discarded by tokenization and the first-token completion
path applies. -/
theorem complete_images_trailing_space_eq (self : DockerClient) :
    complete self "images " 7 = (0, [Pair.mk "images" "images"]) := rfl

/-- C6: `ensure_docker_is_running` fails immediately with the
not-installed error when the binary is not invocable — without probing
liveness or attempting a startup — and returns success with no startup
attempted when the binary is invocable and the liveness probe succeeds. -/
theorem ensureDockerIsRunning_fast_paths (eng : Engine) :
    (eng.available = false →
      ensureDockerIsRunning eng =
        ⟨false, false, Except.error "Docker is not installed. Please install Docker first."⟩) ∧
    (eng.available = true → eng.daemonRunning = true →
      ensureDockerIsRunning eng = ⟨true, false, Except.ok ()⟩) := by
  constructor
  · intro hav
    simp [ensureDockerIsRunning, hav]
  · intro hav hrun
    simp [ensureDockerIsRunning, hav, hrun]

/-- Witness for C6: a missing binary (even with a live daemon) fails
without probing, and an available binary with a live daemon succeeds
without starting anything. -/
theorem ensureDockerIsRunning_fast_paths_witness :
    ensureDockerIsRunning ⟨false, true, Except.ok ()⟩ =
      ⟨false, false, Except.error "Docker is not installed. Please install Docker first."⟩ ∧
    ensureDockerIsRunning ⟨true, true, Except.error "unused"⟩ =
      ⟨true, false, Except.ok ()⟩ :=
  ⟨(ensureDockerIsRunning_fast_paths ⟨false, true, Except.ok ()⟩).1 rfl,
    (ensureDockerIsRunning_fast_paths ⟨true, true, Except.error "unused"⟩).2 rfl rfl⟩

/-- C7: for every `(command, subcommand)` pair absent from the position-2
grammar table, completion with two preceding complete tokens returns the
empty candidate set, whatever the partial token and the client state. -/
theorem complete_unregistered_pair_empty (self : DockerClient) (line : String)
    (pos : Nat) (cmd sub part : String)
    (hsplit : splitWhitespace (line.extract 0 ⟨pos⟩) = [cmd, sub, part])
    (h : (cmd, sub) ∉ posTwoTableKeys) :
    (complete self line pos).2 = [] := by
  simp only [complete, hsplit, posTwoArm_eq_none cmd sub h]

/-- Witness for C7 at `containers list x`: `("containers", "list")` is not
a key of the position-2 table, so no candidates are offered. -/
theorem complete_unregistered_pair_empty_witness :
    splitWhitespace ("containers list x".extract 0 ⟨17⟩) = ["containers", "list", "x"] ∧
    ("containers", "list") ∉ posTwoTableKeys ∧
    (complete DockerClient.offline "containers list x" 17).2 = [] :=
  ⟨by decide, by decide,
    complete_unregistered_pair_empty DockerClient.offline "containers list x" 17
      "containers" "list" "x" (by decide) (by decide)⟩

/-- C8: the size formatter maps 1536 bytes to `1.5 KB`, 512 bytes to
`512 B`, and 1048576 bytes to `1.0 MB` — the unit threshold is 1024 and
output above the smallest unit carries exactly one decimal place. -/
theorem formatSize_boundary_values :
    formatSize 1536 = "1.5 KB" ∧ formatSize 512 = "512 B" ∧ formatSize 1048576 = "1.0 MB" := by
  have h1 : runSizeLoop 1536 = (3 / 2, 1) := by
    norm_num [runSizeLoop, sizeStep, sizeUnits]
  have h2 : runSizeLoop 512 = (512, 0) := by
    norm_num [runSizeLoop, sizeStep, sizeUnits]
  have h3 : runSizeLoop 1048576 = (1, 2) := by
    norm_num [runSizeLoop, sizeStep, sizeUnits]
  refine ⟨?_, ?_, ?_⟩
  · rw [formatSize, h1]
    have hr : roundHalfEven (3 / 2 * 10) = 15 := by norm_num [roundHalfEven]
    simp only [fmtOneDecimal, hr]
    decide
  · rw [formatSize, h2]
    norm_num
    decide
  · rw [formatSize, h3]
    have hr : roundHalfEven (1 * 10) = 10 := by norm_num [roundHalfEven]
    simp only [fmtOneDecimal, hr]
    decide

/-- C9 counterexample: the 32-character name `éé…é` satisfies the claim's
acceptance condition (nonempty, 32 ≤ 63 characters, every character
alphanumeric), yet the validator rejects it, because the length check
bounds `name.len()` — the UTF-8 byte length, 64 here — not the character
count. -/
theorem validateContainerName_byte_length_cex :
    validateContainerName duiIsAlnum eAcuteName =
      Except.error "Container name cannot be longer than 63 characters" ∧
    eAcuteName.isEmpty = false ∧
    eAcuteName.length = 32 ∧
    eAcuteName.data.all (fun c => duiIsAlnum c || c = '-' || c = '_' || c = '.') = true := by
  refine ⟨rfl, rfl, by decide, by decide⟩

/-- C9 (amended): for every alphanumeric classifier, the validator accepts
a name exactly when it is nonempty, its UTF-8 byte length (`name.len()`)
is at most 63, and every character is alphanumeric, `-`, `_` or `.`; and
whenever it rejects, `create_container` propagates that error before the
`docker` subprocess is spawned. -/
theorem validateContainerName_spec (isAlnum : Char → Bool) (name : String) :
    (validateContainerName isAlnum name = Except.ok () ↔
      (¬ name.isEmpty ∧ name.utf8ByteSize ≤ 63 ∧
        ∀ c ∈ name.data, isAlnum c = true ∨ c = '-' ∨ c = '_' ∨ c = '.')) ∧
    (∀ (image : String) (ports volumes env : Option String) (e : String),
      validateContainerName isAlnum name = Except.error e →
      createContainerArgs isAlnum name image ports volumes env = Except.error e) := by
  constructor
  · rw [validateContainerName]
    split_ifs with h1 h2 h3
    · refine iff_of_false (by simp) ?_
      rintro ⟨hne, -, -⟩
      exact hne h1
    · refine iff_of_false (by simp) ?_
      rintro ⟨-, hle, -⟩
      omega
    · refine iff_of_true rfl ⟨h1, by omega, ?_⟩
      intro c hc
      have := List.all_eq_true.mp h3 c hc
      simp at this
      tauto
    · refine iff_of_false (by simp) ?_
      rintro ⟨-, -, hall⟩
      apply h3
      rw [List.all_eq_true]
      intro c hc
      rcases hall c hc with h | h | h | h <;> simp [h]
  · intro image ports volumes env e hval
    rw [createContainerArgs.eq_def, hval]

/-- Witness for C9: a valid name is accepted, and the empty name's
validation error is returned by `create_container` unchanged, with no
subprocess argument vector produced. -/
theorem validateContainerName_spec_witness :
    validateContainerName duiIsAlnum "web-1" = Except.ok () ∧
    validateContainerName duiIsAlnum "" = Except.error "Container name cannot be empty" ∧
    createContainerArgs duiIsAlnum "" "nginx" none none none =
      Except.error "Container name cannot be empty" :=
  ⟨(validateContainerName_spec duiIsAlnum "web-1").1.mpr (by decide), rfl,
    (validateContainerName_spec duiIsAlnum "").2 "nginx" none none none
      "Container name cannot be empty" rfl⟩

/-- C10: every candidate the completion engine returns has display text
equal to replacement text, and the replacement starts with the partial
token being completed — the last whitespace-delimited word before the
cursor, or the empty string when there is none. -/
theorem complete_candidates_invariant (self : DockerClient) (line : String)
    (pos : Nat) (p : Pair) (hp : p ∈ (complete self line pos).2) :
    p.display = p.replacement ∧
      startsWith p.replacement
        ((splitWhitespace (line.extract 0 ⟨pos⟩)).getLast?.getD "") = true := by
  rcases hws : splitWhitespace (line.extract 0 ⟨pos⟩) with
    _ | ⟨w0, _ | ⟨w1, _ | ⟨w2, _ | ⟨w3, _ | ⟨w4, _ | ⟨w5, rest⟩⟩⟩⟩⟩⟩
  · simp only [complete, hws, List.mem_map] at hp
    obtain ⟨x, _, rfl⟩ := hp
    exact ⟨rfl, startsWith_empty x⟩
  · simp only [complete, hws] at hp
    simpa using mem_filterPairs hp
  · simp only [complete, hws] at hp
    simpa using mem_filterPairs hp
  · simp only [complete, hws] at hp
    rcases harm : posTwoArm w0 w1 with _ | src
    · rw [harm] at hp
      simp at hp
    · rw [harm] at hp
      simpa using mem_filterPairs hp
  · simp only [complete, hws] at hp
    rcases harm : posThreeArm w0 w1 with _ | xs
    · rw [harm] at hp
      simp at hp
    · rw [harm] at hp
      simpa using mem_filterPairs hp
  · simp only [complete, hws] at hp
    rcases harm : posFourArm w0 w1 with _ | xs
    · rw [harm] at hp
      simp at hp
    · rw [harm] at hp
      simpa using mem_filterPairs hp
  · simp only [complete, hws] at hp
    simp at hp

/-- Witness for C10: the candidate `start` offered for the line `sta`
displays its replacement and extends the partial token `sta`. -/
theorem complete_candidates_invariant_witness :
    Pair.mk "start" "start" ∈ (complete DockerClient.offline "sta" 3).2 ∧
    ((Pair.mk "start" "start").display = (Pair.mk "start" "start").replacement ∧
      startsWith (Pair.mk "start" "start").replacement
        ((splitWhitespace ("sta".extract 0 ⟨3⟩)).getLast?.getD "") = true) :=
  ⟨by decide,
    complete_candidates_invariant DockerClient.offline "sta" 3
      (Pair.mk "start" "start") (by decide)⟩

end Dui
